import Mathlib

/-!
Shallow embedding of the adapter-switching inference orchestrator in
`src/assistant-flask-api` (router.py, adapters.py, model_handler.py), together
with theorems checking the specification's claims against it.
-/

namespace UtopiaHire

/-! ### JSON-like payload values (router.py)

Request payloads are JSON objects; the router only inspects Python
truthiness of the fields, so we embed just enough of a JSON value to
carry truthiness faithfully (`None`/missing is `null`, empty dict/list/str
are falsy, non-empty ones truthy). -/

inductive JsonVal where
  | null
  | bool (b : Bool)
  | str (s : String)
  | arr (items : List JsonVal)
  | obj (fields : List (String × JsonVal))
  deriving Repr

/-- Python truthiness of a JSON value as used by `detect_intent`. -/
def truthy : JsonVal → Bool
  | JsonVal.null => false
  | JsonVal.bool b => b
  | JsonVal.str s => !s.isEmpty
  | JsonVal.arr items => !items.isEmpty
  | JsonVal.obj fields => !fields.isEmpty

/-- Raw request payload as read by `AssistantRouter.detect_intent`
(`payload.get(...)`, with `JsonVal.null` standing for an absent key). -/
structure Payload where
  message : JsonVal
  resume_json : JsonVal
  job_offers_json : JsonVal
  context : JsonVal
  deriving Repr

/-- Normalized payload returned by `detect_intent`. -/
structure NormalizedPayload where
  message : String
  resume_json : JsonVal
  job_offers_json : JsonVal
  context : JsonVal
  deriving Repr

/-- Keyword sets from `AssistantRouter.__init__` (router.py:14-25).
Python uses sets; membership tests below are order-independent, so lists
in source order are a faithful embedding. -/
structure AssistantRouter where
  career_keywords : List String
  resume_keywords : List String
  job_keywords : List String
  recruiter_keywords : List String
  latex_keywords : List String
  deriving Repr, DecidableEq

/-- The keyword sets exactly as written in `AssistantRouter.__init__`. -/
def assistantRouter : AssistantRouter :=
  { career_keywords :=
      ["career", "skills", "improve", "help me get hired",
       "how can i prepare", "industry norms", "good practices",
       "how to write", "how to explain experience"]
  , resume_keywords :=
      ["evaluate my resume", "score my profile", "what\x27s wrong with my cv",
       "cv", "resume"]
  , job_keywords :=
      ["best job for me", "job match", "compare job offers", "job offers"]
  , recruiter_keywords :=
      ["simulate interviewer", "ask me interview questions",
       "pretend to be a recruiter", "interviewer", "interview"]
  , latex_keywords :=
      ["generate resume in latex", "latex cv", "create pdf resume", "latex"] }

/-- Python substring containment `needle in haystack` on rune lists. -/
def isSubstr (needle : List Char) : List Char → Bool
  | [] => needle.isEmpty
  | c :: rest => needle.isPrefixOf (c :: rest) || isSubstr needle rest

/-- Python `str.lower()`: lowercase every character. -/
def lower_str (s : String) : String := ⟨s.data.map Char.toLower⟩

/-- `AssistantRouter._contains_any` (router.py:27-32): lowercases the text
and checks each keyword for substring containment. -/
def contains_any (text : String) (keywords : List String) : Bool :=
  let t := lower_str text
  keywords.any (fun k => isSubstr k.data t.data)

/-- `AssistantRouter.detect_intent` (router.py:34-76): priority cascade over
the payload, returning the mode and the normalized payload. -/
def detect_intent (r : AssistantRouter) (payload : Payload) :
    String × NormalizedPayload :=
  let message := match payload.message with
    | JsonVal.str s => s
    | _ => ""
  let resume_json := payload.resume_json
  let job_offers_json := payload.job_offers_json
  let mode :=
    if truthy resume_json && truthy job_offers_json then "job_match"
    else if truthy resume_json &&
        (contains_any message r.resume_keywords ||
         contains_any message ["evaluate", "evaluate my resume"]) then
      "resume_eval"
    else if truthy job_offers_json &&
        (contains_any message r.job_keywords || true) then
      "job_match"
    else if contains_any message r.latex_keywords then "latex_resume"
    else if contains_any message r.career_keywords then "career"
    else if contains_any message r.recruiter_keywords then "recruiter"
    else if contains_any message r.job_keywords then "job_match"
    else if contains_any message r.resume_keywords then "resume_eval"
    else "general"
  (mode,
   { message := message
   , resume_json := resume_json
   , job_offers_json := job_offers_json
   , context := payload.context })

/-! ### Filesystem and error model (adapters.py)

The adapter registry is a directory tree; the code only ever asks whether
the root exists, which entries the root contains, whether an entry is a
directory, and whether `adapter_model.safetensors` exists directly inside
an entry. The embedding records exactly those observations. -/

/-- One entry of the registry root directory. `hasArtifact` states that
`adapter_model.safetensors` exists directly under the entry (always false
for a non-directory entry). -/
structure DirEntry where
  name : String
  isDir : Bool
  hasArtifact : Bool
  deriving Repr, DecidableEq

/-- The registry root: whether the configured base path exists, and the
directory entries under it when it does. -/
structure RegistryFS where
  rootExists : Bool
  entries : List DirEntry
  deriving Repr, DecidableEq

/-- Python exception values raised by adapters.py: `FileNotFoundError`,
and `RuntimeError` raised with `from e` (so it carries a cause). Any other
exception surfacing from the PEFT library is `otherError`. -/
inductive PyErr where
  | fileNotFound (msg : String)
  | runtimeError (msg : String) (cause : PyErr)
  | otherError (msg : String)
  deriving Repr, DecidableEq

/-- Python `str(e)`: the message of an exception. -/
def PyErr.msg : PyErr → String
  | PyErr.fileNotFound m => m
  | PyErr.runtimeError m _ => m
  | PyErr.otherError m => m

/-- Mutable state of an `AdapterManager` instance: the configured base
path and the `_current_adapter` field (adapters.py:31-32). -/
structure ManagerState where
  adapters_base_path : String
  current_adapter : Option String
  deriving Repr, DecidableEq

/-- `AdapterManager.__init__` (adapters.py:23-41): sets the base path and
`_current_adapter = None`, then raises `FileNotFoundError` when the base
path does not exist. -/
def AdapterManager.init (fs : RegistryFS) (adapters_base_path : String) :
    Except PyErr ManagerState :=
  if fs.rootExists then
    Except.ok { adapters_base_path := adapters_base_path, current_adapter := none }
  else
    Except.error (PyErr.fileNotFound
      ("Adapters base path does not exist: " ++ adapters_base_path))

/-- `AdapterManager.get_current_adapter` (adapters.py:125-132). -/
def get_current_adapter (st : ManagerState) : Option String :=
  st.current_adapter

/-- String form of `self.adapters_base_path / adapter_name`. -/
def adapter_path_str (st : ManagerState) (adapter_name : String) : String :=
  st.adapters_base_path ++ "/" ++ adapter_name

/-- Message of the `FileNotFoundError` raised when the adapter directory is
absent (adapters.py:59-61). -/
def dir_missing_msg (st : ManagerState) (adapter_name : String) : String :=
  "Adapter \x27" ++ adapter_name ++ "\x27 not found at " ++
    adapter_path_str st adapter_name

/-- Message of the `FileNotFoundError` raised when the weight artifact is
absent (adapters.py:66-68). -/
def artifact_missing_msg (st : ManagerState) (adapter_name : String) : String :=
  "adapter_model.safetensors not found in " ++ adapter_path_str st adapter_name

/-- Lookup of a directory entry by name under the registry root
(`(self.adapters_base_path / adapter_name).exists()`). -/
def find_entry (fs : RegistryFS) (adapter_name : String) : Option DirEntry :=
  fs.entries.find? (fun e => e.name == adapter_name)

/-- `AdapterManager.get_adapter_path` (adapters.py:43-70): two-stage
validation, first the directory, then `adapter_model.safetensors`. -/
def get_adapter_path (fs : RegistryFS) (st : ManagerState)
    (adapter_name : String) : Except PyErr String :=
  match find_entry fs adapter_name with
  | none => Except.error (PyErr.fileNotFound (dir_missing_msg st adapter_name))
  | some e =>
      if e.hasArtifact then Except.ok (adapter_path_str st adapter_name)
      else Except.error (PyErr.fileNotFound (artifact_missing_msg st adapter_name))

/-- `AdapterManager.list_available_adapters` (adapters.py:134-148): keep the
directories among the root entries that contain the weight artifact, then
return their names sorted (Python `sorted` = the lexicographically sorted
permutation). Pure read-only scan: takes only the filesystem, touches no
manager state. -/
def list_available_adapters (fs : RegistryFS) : List String :=
  List.insertionSort (· ≤ ·)
    ((fs.entries.filter (fun e => e.isDir && e.hasArtifact)).map DirEntry.name)

/-! ### Model handles and the PEFT boundary

Modelled from the spec: the PEFT library is outside this repository; the
spec's upstream collaborator contract (spec §6) says that, given a base
model and an adapter path, `PeftModel.from_pretrained` returns an
adapter-augmented handle carrying a `merge-into-base` operation
(`merge_and_unload`) and an inference-mode operation (`eval`, a no-op on
the state tracked here). A handle records the deltas already folded
permanently into the base weights and the at most one active adapter
wrapper, observable through the `peft_config` attribute. -/

structure MModel where
  mergedDeltas : List String
  peft_config : Option String
  deriving Repr, DecidableEq

/-- `model.merge_and_unload()`: fold the active adapter delta permanently
into the base weights and discard the wrapper. -/
def merge_and_unload (m : MModel) : MModel :=
  match m.peft_config with
  | some a => { mergedDeltas := m.mergedDeltas ++ [a], peft_config := none }
  | none => m

/-- `PeftModel.from_pretrained(model, path)` per the spec §6 boundary
contract: wrap the given model with the named adapter. -/
def peft_from_pretrained (m : MModel) (adapter_name : String) : MModel :=
  { m with peft_config := some adapter_name }

/-- The `RuntimeError(f"Adapter loading failed for '{name}': {str(e)}") from e`
raised by the `except` clause of `load_adapter` (adapters.py:119-123). -/
def wrap_load_error (adapter_name : String) (e : PyErr) : PyErr :=
  PyErr.runtimeError
    ("Adapter loading failed for \x27" ++ adapter_name ++ "\x27: " ++ e.msg) e

/-- `AdapterManager.load_adapter` (adapters.py:72-123). The whole body runs
inside `try ... except Exception`, `get_adapter_path` included. `loadOk`
is the oracle for whether the external `PeftModel.from_pretrained` call
succeeds for a given adapter. Returns the manager state after the call
(the object survives a raised exception) and either the wrapped model or
the raised exception. -/
def load_adapter (fs : RegistryFS) (loadOk : String → Bool)
    (st : ManagerState) (model : MModel) (adapter_name : String) :
    ManagerState × Except PyErr MModel :=
  match get_adapter_path fs st adapter_name with
  | Except.error e => (st, Except.error (wrap_load_error adapter_name e))
  | Except.ok _adapter_path =>
      let merged :=
        if model.peft_config.isSome then merge_and_unload model else model
      if loadOk adapter_name then
        (⟨st.adapters_base_path, some adapter_name⟩,
         Except.ok (peft_from_pretrained merged adapter_name))
      else
        (st, Except.error (wrap_load_error adapter_name
          (PyErr.otherError
            ("PeftModel.from_pretrained failed for " ++ adapter_name))))

/-! ### Lock-event traces (model_handler.py / adapters.py)

`ModelHandler.run_with_adapter` (model_handler.py:94-125) is straight-line
code; its sequence of lock operations, adapter swap, and generation is
embedded as an event trace. `acquireGen`/`releaseGen` are the handler's
`self._lock`; `acquireSwap`/`releaseSwap` are the `AdapterManager`'s
`self._lock` taken inside `load_adapter` (adapters.py:92). -/

inductive LockEvent where
  | acquireSwap
  | releaseSwap
  | acquireGen
  | releaseGen
  | swapTo (adapter_name : String)
  | generateText
  deriving Repr, DecidableEq

/-- Trace of `AdapterManager.load_adapter` on its success path: the swap
happens inside `with self._lock:` of the manager (adapters.py:92-117). -/
def load_adapter_trace (adapter_name : String) : List LockEvent :=
  [LockEvent.acquireSwap, LockEvent.swapTo adapter_name, LockEvent.releaseSwap]

/-- Trace of `ModelHandler.run_with_adapter` on its success path
(model_handler.py:94-125): line 100 calls `load_adapter` first; only then
does line 103 enter `with self._lock:` for the generation. -/
def run_with_adapter_trace (adapter_name : String) : List LockEvent :=
  load_adapter_trace adapter_name ++
    [LockEvent.acquireGen, LockEvent.generateText, LockEvent.releaseGen]

/-- Scans a trace tracking the generation-lock depth; true iff every
`acquireSwap` happens while the generation lock is held. -/
def swapAcqUnderGenLock : Nat → List LockEvent → Bool
  | _, [] => true
  | d, LockEvent.acquireGen :: rest => swapAcqUnderGenLock (d + 1) rest
  | d, LockEvent.releaseGen :: rest => swapAcqUnderGenLock (d - 1) rest
  | d, LockEvent.acquireSwap :: rest =>
      decide (0 < d) && swapAcqUnderGenLock d rest
  | d, _ :: rest => swapAcqUnderGenLock d rest

/-- Scans a trace tracking the generation-lock depth; true iff every
`acquireSwap` happens while the generation lock is free. -/
def swapAcqOutsideGenLock : Nat → List LockEvent → Bool
  | _, [] => true
  | d, LockEvent.acquireGen :: rest => swapAcqOutsideGenLock (d + 1) rest
  | d, LockEvent.releaseGen :: rest => swapAcqOutsideGenLock (d - 1) rest
  | d, LockEvent.acquireSwap :: rest =>
      decide (d = 0) && swapAcqOutsideGenLock d rest
  | d, _ :: rest => swapAcqOutsideGenLock d rest

/-- Scans a trace tracking the generation-lock depth; true iff every
`generateText` happens while the generation lock is held. -/
def genUnderGenLock : Nat → List LockEvent → Bool
  | _, [] => true
  | d, LockEvent.acquireGen :: rest => genUnderGenLock (d + 1) rest
  | d, LockEvent.releaseGen :: rest => genUnderGenLock (d - 1) rest
  | d, LockEvent.generateText :: rest =>
      decide (0 < d) && genUnderGenLock d rest
  | d, _ :: rest => genUnderGenLock d rest

/-- True iff the trace contains no swap-lock or swap event at all. -/
def noSwapEvents : List LockEvent → Bool
  | [] => true
  | LockEvent.acquireSwap :: _ => false
  | LockEvent.releaseSwap :: _ => false
  | LockEvent.swapTo _ :: _ => false
  | _ :: rest => noSwapEvents rest

/-- True iff all swap activity precedes the first generation-lock
acquisition: once `acquireGen` occurs, no swap event follows. -/
def swapPrecedesGen : List LockEvent → Bool
  | [] => true
  | LockEvent.acquireGen :: rest => noSwapEvents rest
  | _ :: rest => swapPrecedesGen rest

/-! ### Generation parameters (model_handler.py:53-82) -/

/-- Parameters of `ModelHandler._generate`; `default_gen_params` below holds
the Python defaults `max_new_tokens=128, temperature=0.5, do_sample=False`. -/
structure GenParams where
  max_new_tokens : Nat
  temperature : ℚ
  do_sample : Bool
  deriving Repr, DecidableEq

/-- Defaults of `_generate`'s signature (model_handler.py:53). -/
def default_gen_params : GenParams := ⟨128, 1/2, false⟩

/-- Keyword arguments passed to `self.model.generate` in `_generate`
(model_handler.py:70-79); `none` means the argument is `None`, i.e. not
applied. -/
structure GenerateArgs where
  max_new_tokens : Nat
  temperature : Option ℚ
  top_p : Option ℚ
  do_sample : Bool
  pad_token_id : Nat
  use_cache : Bool
  num_beams : Nat
  deriving Repr, DecidableEq

/-- The `generate` call of `_generate` (model_handler.py:70-79), with
`pad_token_id=self.tokenizer.eos_token_id` and the conditional sampling
arguments exactly as written. -/
def generate_args (eos_token_id : Nat) (p : GenParams) : GenerateArgs :=
  { max_new_tokens := p.max_new_tokens
  , temperature := if p.do_sample then some p.temperature else none
  , top_p := if p.do_sample then some (9/10) else none
  , do_sample := p.do_sample
  , pad_token_id := eos_token_id
  , use_cache := false
  , num_beams := 1 }

/-! ### Concrete fixtures used by witness theorems -/

/-- A registry root with two valid adapters `A` and `B`. -/
def fsAB : RegistryFS :=
  { rootExists := true
  , entries := [⟨"A", true, true⟩, ⟨"B", true, true⟩] }

/-- A registry root that exists but holds no adapters. -/
def fsEmptyRoot : RegistryFS := { rootExists := true, entries := [] }

/-- A missing registry root. -/
def fsRootMissing : RegistryFS := { rootExists := false, entries := [] }

/-- A registry root with one valid adapter and one directory missing the
weight artifact. -/
def fsMixed : RegistryFS :=
  { rootExists := true
  , entries := [⟨"job_match", true, true⟩, ⟨"resume_eval", true, false⟩] }

/-- An oracle under which every `PeftModel.from_pretrained` call succeeds. -/
def okAll : String → Bool := fun _ => true

/-- A freshly initialized manager state over `lora_adapters`. -/
def st0 : ManagerState := ⟨"lora_adapters", none⟩

/-- A plain base model: nothing merged, no active wrapper. -/
def m0 : MModel := ⟨[], none⟩

/-- A payload with only job offers: `{job_offers_json: [...]}`. -/
def jobOnlyPayload : Payload :=
  { message := JsonVal.null
  , resume_json := JsonVal.null
  , job_offers_json := JsonVal.arr [JsonVal.obj [("title", JsonVal.str "ML Engineer")]]
  , context := JsonVal.null }

/-- The payload of the repository test `test_assistant_latex`
(test_api.py:404): `{message: "Generate resume in LaTeX", resume_json: {...}}`. -/
def latexPayload : Payload :=
  { message := JsonVal.str "Generate resume in LaTeX"
  , resume_json := JsonVal.obj [("name", JsonVal.str "Jane Doe")]
  , job_offers_json := JsonVal.null
  , context := JsonVal.null }

/-! ### Helper lemmas -/

/-- String append acts as list append on the underlying character data. -/
theorem string_data_append (s t : String) : (s ++ t).data = s.data ++ t.data := rfl

/-! ### Claim theorems -/

/-- C6: for every state of the registry root, `list_available_adapters`
returns exactly the names of the subdirectories containing
`adapter_model.safetensors`, sorted lexicographically; directories missing
the artifact never appear. The embedding is a pure function of the
filesystem alone, so the call mutates no manager state. -/
theorem list_available_adapters_sorted_complete (fs : RegistryFS) :
    (list_available_adapters fs).Sorted (· ≤ ·) ∧
    ∀ n : String, n ∈ list_available_adapters fs ↔
      ∃ e ∈ fs.entries, e.isDir = true ∧ e.hasArtifact = true ∧ e.name = n := by
  constructor
  · exact List.sorted_insertionSort _ _
  · intro n
    unfold list_available_adapters
    rw [List.mem_insertionSort]
    simp [List.mem_filter, List.mem_map]
    constructor
    · rintro ⟨e, ⟨he, hd, ha⟩, hn⟩
      exact ⟨e, he, hd, ha, hn⟩
    · rintro ⟨e, he, hd, ha, hn⟩
      exact ⟨e, ⟨he, hd, ha⟩, hn⟩

/-- C7: `get_adapter_path` succeeds with the adapter directory path when
the directory and its weight artifact both exist, and otherwise fails with
a `FileNotFoundError` naming the adapter; validation is two-stage and the
two stages carry distinct messages (directory missing vs. artifact
missing). -/
theorem get_adapter_path_two_stage (fs : RegistryFS) (st : ManagerState)
    (name : String) :
    (find_entry fs name = none →
      get_adapter_path fs st name =
        Except.error (PyErr.fileNotFound (dir_missing_msg st name))) ∧
    (∀ e, find_entry fs name = some e → e.hasArtifact = false →
      get_adapter_path fs st name =
        Except.error (PyErr.fileNotFound (artifact_missing_msg st name))) ∧
    (∀ e, find_entry fs name = some e → e.hasArtifact = true →
      get_adapter_path fs st name = Except.ok (adapter_path_str st name)) ∧
    (∃ s t, s ++ name.data ++ t = (dir_missing_msg st name).data) ∧
    (∃ s t, s ++ name.data ++ t = (artifact_missing_msg st name).data) ∧
    dir_missing_msg st name ≠ artifact_missing_msg st name := by
  refine ⟨?_, ?_, ?_, ?_, ?_, ?_⟩
  · intro h
    unfold get_adapter_path
    rw [h]
  · intro e he hart
    unfold get_adapter_path
    rw [he]
    simp [hart]
  · intro e he hart
    unfold get_adapter_path
    rw [he]
    simp [hart]
  · exact ⟨("Adapter \x27").data,
      ("\x27 not found at " ++ adapter_path_str st name).data,
      by simp [dir_missing_msg, string_data_append]⟩
  · exact ⟨("adapter_model.safetensors not found in " ++
        st.adapters_base_path ++ "/").data, [],
      by simp [artifact_missing_msg, adapter_path_str, string_data_append]⟩
  · intro h
    have h2 := congrArg String.data h
    simp only [dir_missing_msg, artifact_missing_msg, string_data_append] at h2
    simp only [List.cons_append, List.append_assoc] at h2
    injection h2 with hc _
    exact absurd hc (by decide)

/-- C7 witness: on a registry holding `job_match` (valid) and `resume_eval`
(missing artifact), resolution succeeds for `job_match`, reports the
directory-missing error for an absent adapter, and the artifact-missing
error for `resume_eval`. -/
theorem get_adapter_path_two_stage_witness :
    get_adapter_path fsMixed st0 "absent" =
      Except.error (PyErr.fileNotFound (dir_missing_msg st0 "absent")) ∧
    get_adapter_path fsMixed st0 "resume_eval" =
      Except.error (PyErr.fileNotFound (artifact_missing_msg st0 "resume_eval")) ∧
    get_adapter_path fsMixed st0 "job_match" =
      Except.ok (adapter_path_str st0 "job_match") :=
  ⟨(get_adapter_path_two_stage fsMixed st0 "absent").1 rfl,
   (get_adapter_path_two_stage fsMixed st0 "resume_eval").2.1
     ⟨"resume_eval", true, false⟩ rfl rfl,
   (get_adapter_path_two_stage fsMixed st0 "job_match").2.2.1
     ⟨"job_match", true, true⟩ rfl rfl⟩

/-- C9: constructing the `AdapterManager` fails with a `FileNotFoundError`
exactly when the registry root does not exist; when it exists, construction
succeeds with `_current_adapter = None`. -/
theorem adapter_manager_init_iff_root (fs : RegistryFS) (path : String) :
    ((∃ st, AdapterManager.init fs path = Except.ok st) ↔ fs.rootExists = true) ∧
    (∀ st, AdapterManager.init fs path = Except.ok st →
      st.current_adapter = none ∧ st.adapters_base_path = path) ∧
    (fs.rootExists = false →
      AdapterManager.init fs path = Except.error (PyErr.fileNotFound
        ("Adapters base path does not exist: " ++ path))) := by
  unfold AdapterManager.init
  cases h : fs.rootExists <;> simp

/-- C9 witness: construction fails on a missing root and, on an existing
root, yields a state with no current adapter. -/
theorem adapter_manager_init_iff_root_witness :
    AdapterManager.init fsRootMissing "gone" = Except.error (PyErr.fileNotFound
      ("Adapters base path does not exist: " ++ "gone")) ∧
    (ManagerState.mk "lora_adapters" none).current_adapter = none ∧
    (ManagerState.mk "lora_adapters" none).adapters_base_path = "lora_adapters" :=
  ⟨(adapter_manager_init_iff_root fsRootMissing "gone").2.2 rfl,
   (adapter_manager_init_iff_root fsEmptyRoot "lora_adapters").2.1
     (ManagerState.mk "lora_adapters" none) rfl⟩

/-- C10: a `load_adapter` call that fails — whether at resolution or at
adapter construction — leaves the manager's `_current_adapter` unchanged:
`get_current_adapter` answers the same before and after the failed call. -/
theorem load_adapter_failure_preserves_current (fs : RegistryFS)
    (loadOk : String → Bool) (st : ManagerState) (model : MModel)
    (name : String) (e : PyErr)
    (h : (load_adapter fs loadOk st model name).2 = Except.error e) :
    get_current_adapter (load_adapter fs loadOk st model name).1 =
      get_current_adapter st := by
  unfold load_adapter at h ⊢
  cases hga : get_adapter_path fs st name
  · rfl
  · cases hok : loadOk name <;> simp [hga, hok] at h ⊢

/-- C10 witness: a failed load of a missing adapter leaves
`get_current_adapter` unchanged. -/
theorem load_adapter_failure_preserves_current_witness :
    get_current_adapter (load_adapter fsEmptyRoot okAll st0 m0 "missing").1 =
      get_current_adapter st0 :=
  load_adapter_failure_preserves_current fsEmptyRoot okAll st0 m0 "missing"
    (wrap_load_error "missing" (PyErr.fileNotFound (dir_missing_msg st0 "missing")))
    rfl

/-- C1: two successful `load_adapter` calls on the shared model, "A" then
"B": before B's wrapper is constructed, A's delta is merged into the base
weights and its wrapper discarded, so afterwards `get_current_adapter`
answers "B" and the model carries exactly one active adapter delta (B's),
never a stacked superposition of A's and B's wrappers. -/
theorem sequential_load_adapter_single_active_delta
    (fs : RegistryFS) (loadOk : String → Bool) (st st1 st2 : ManagerState)
    (model m1 m2 : MModel) (a b : String)
    (h0 : model.peft_config = none)
    (hA : load_adapter fs loadOk st model a = (st1, Except.ok m1))
    (hB : load_adapter fs loadOk st1 m1 b = (st2, Except.ok m2)) :
    get_current_adapter st2 = some b ∧
    m2.peft_config = some b ∧
    m2.mergedDeltas = model.mergedDeltas ++ [a] := by
  unfold load_adapter at hA hB
  cases hga : get_adapter_path fs st a
  · simp [hga] at hA
  · cases hok : loadOk a
    · simp [hga, hok] at hA
    · simp only [hga, hok, h0, Option.isSome_none, Bool.false_eq_true, if_false,
        if_true, Prod.mk.injEq, Except.ok.injEq] at hA
      obtain ⟨hst1, hm1⟩ := hA
      cases hgb : get_adapter_path fs st1 b
      · simp [hgb] at hB
      · cases hokb : loadOk b
        · simp [hgb, hokb] at hB
        · simp only [hgb, hokb, ← hm1, peft_from_pretrained, Option.isSome_some,
            if_true, Prod.mk.injEq, Except.ok.injEq] at hB
          obtain ⟨hst2, hm2⟩ := hB
          rw [← hst2, ← hm2]
          simp [get_current_adapter, merge_and_unload, peft_from_pretrained]

/-- C1 witness: on a registry holding valid adapters `A` and `B`, loading
"A" then "B" from a plain base model ends with current adapter "B", B's
wrapper as the only active delta, and A's delta folded into the base. -/
theorem sequential_load_adapter_single_active_delta_witness :
    get_current_adapter ⟨"lora_adapters", some "B"⟩ = some "B" ∧
    (⟨["A"], some "B"⟩ : MModel).peft_config = some "B" ∧
    (⟨["A"], some "B"⟩ : MModel).mergedDeltas = m0.mergedDeltas ++ ["A"] :=
  sequential_load_adapter_single_active_delta fsAB okAll st0
    ⟨"lora_adapters", some "A"⟩ ⟨"lora_adapters", some "B"⟩
    m0 ⟨[], some "A"⟩ ⟨["A"], some "B"⟩ "A" "B" rfl rfl rfl

/-- C2 counterexample: on the trace of `run_with_adapter` (for adapter
"job_match") the swap-lock acquisition is NOT nested within a
generation-lock-held section — the swap happens before the handler's
generation lock is taken. -/
theorem run_with_adapter_swap_not_under_gen_lock :
    ¬ swapAcqUnderGenLock 0 (run_with_adapter_trace "job_match") = true := by
  decide

/-- C2 (amended): for every adapter name, in `run_with_adapter` the swap
lock is acquired while the generation lock is free, all swap activity
completes before the generation lock is acquired, and only the generation
itself runs under the generation lock. -/
theorem run_with_adapter_lock_order (adapter_name : String) :
    swapAcqOutsideGenLock 0 (run_with_adapter_trace adapter_name) = true ∧
    genUnderGenLock 0 (run_with_adapter_trace adapter_name) = true ∧
    swapPrecedesGen (run_with_adapter_trace adapter_name) = true :=
  ⟨rfl, rfl, rfl⟩

/-- C3: code behavior at the failing input. Resolving a missing adapter
inside `load_adapter` does NOT propagate the `FileNotFoundError`
unchanged: because `get_adapter_path` is called inside the `try` block,
the error is caught and re-raised as the wrapping `RuntimeError` (carrying
the adapter name and the `FileNotFoundError` as cause), contradicting
`load_adapter`'s own docstring. -/
theorem load_adapter_wraps_resolution_not_found :
    (load_adapter fsEmptyRoot okAll st0 m0 "nonexistent").2 =
      Except.error (wrap_load_error "nonexistent"
        (PyErr.fileNotFound (dir_missing_msg st0 "nonexistent"))) ∧
    ∀ msg : String, (load_adapter fsEmptyRoot okAll st0 m0 "nonexistent").2 ≠
      Except.error (PyErr.fileNotFound msg) := by
  constructor
  · rfl
  · intro msg h
    rw [show (load_adapter fsEmptyRoot okAll st0 m0 "nonexistent").2 =
        Except.error (wrap_load_error "nonexistent"
          (PyErr.fileNotFound (dir_missing_msg st0 "nonexistent"))) from rfl] at h
    simp [wrap_load_error] at h

/-- C4: code behavior at the failing input. For the payload of the
repository test `test_assistant_latex` — message "Generate resume in
LaTeX" with resume data present and no job offers — `detect_intent`
returns mode `resume_eval`, not `latex_resume`: the bare keyword "resume"
is a substring of the lowered message, so the resume-data branch fires
before the latex cascade is ever reached. -/
theorem detect_intent_latex_test_payload :
    (detect_intent assistantRouter latexPayload).1 = "resume_eval" ∧
    truthy latexPayload.resume_json = true ∧
    contains_any "Generate resume in LaTeX" assistantRouter.resume_keywords
      = true :=
  ⟨rfl, rfl, rfl⟩

/-- C5: whenever job-offer data is present (truthy), `detect_intent`
returns `job_match`, regardless of the message text and regardless of
whether resume data is also present. -/
theorem detect_intent_job_offers_job_match (p : Payload)
    (hj : truthy p.job_offers_json = true) :
    (detect_intent assistantRouter p).1 = "job_match" := by
  unfold detect_intent
  cases hres : truthy p.resume_json <;> simp [hres, hj]

/-- C5 witness: a payload carrying only job offers maps to `job_match`. -/
theorem detect_intent_job_offers_job_match_witness :
    truthy jobOnlyPayload.job_offers_json = true ∧
    (detect_intent assistantRouter jobOnlyPayload).1 = "job_match" :=
  ⟨rfl, detect_intent_job_offers_job_match jobOnlyPayload rfl⟩

/-- C8: with sampling off (the default), the `generate` call of
`_generate` applies no temperature and no nucleus parameter, reuses the
tokenizer's end-of-sequence token as the pad token, and — for every
parameter set, sampling or not — disables the key-value cache. -/
theorem generate_args_deterministic (eos_token_id : Nat) (p : GenParams)
    (h : p.do_sample = false) :
    (generate_args eos_token_id p).do_sample = false ∧
    (generate_args eos_token_id p).temperature = none ∧
    (generate_args eos_token_id p).top_p = none ∧
    (generate_args eos_token_id p).pad_token_id = eos_token_id ∧
    default_gen_params.do_sample = false ∧
    ∀ q : GenParams, (generate_args eos_token_id q).use_cache = false := by
  simp [generate_args, h, default_gen_params]

/-- C8 witness: the default parameter set at a concrete eos token id. -/
theorem generate_args_deterministic_witness :
    (generate_args 2 default_gen_params).do_sample = false ∧
    (generate_args 2 default_gen_params).temperature = none ∧
    (generate_args 2 default_gen_params).top_p = none ∧
    (generate_args 2 default_gen_params).pad_token_id = 2 ∧
    (generate_args 2 default_gen_params).use_cache = false :=
  ⟨(generate_args_deterministic 2 default_gen_params rfl).1,
   (generate_args_deterministic 2 default_gen_params rfl).2.1,
   (generate_args_deterministic 2 default_gen_params rfl).2.2.1,
   (generate_args_deterministic 2 default_gen_params rfl).2.2.2.1,
   (generate_args_deterministic 2 default_gen_params rfl).2.2.2.2.2
     default_gen_params⟩

end UtopiaHire
